import Mathlib

/-!
Shallow embedding of the three-statement projection engine of
`financial_model.py`, for checking its specification.

Numeric values are modelled as rationals (the Python engine computes with
floats; every claim checked here is about exact recurrences and data flow,
except the division-by-zero behaviour of Gross Margin %, which is modelled
explicitly below). Pandas tables are modelled as functions from a column
name to a function from the period index to a value, mirroring the by-name
access `df.loc[i, 'Column']` used throughout the source.
-/

namespace FM

/-! ## Configuration data model (mirrors `client_config.yaml` as read by
`financial_model.py`; field names follow the YAML keys). -/

/-- A revenue stream or variable-cost block: `initial_value` and
`growth_rate` (`create_config_from_excel.py`, `revenue_streams` /
`variable_costs`). -/
structure StreamCfg where
  initial_value : ℚ
  growth_rate : ℚ
  deriving DecidableEq

/-- The four configured revenue streams. -/
structure RevenueStreams where
  stream_1 : StreamCfg
  stream_2 : StreamCfg
  stream_3 : StreamCfg
  stream_4 : StreamCfg
  deriving DecidableEq

/-- `sales_returns`: an initial (period-0) actual and a rate applied to the
revenue-stream sum afterwards. -/
structure SalesReturnsCfg where
  initial_value : ℚ
  rate : ℚ
  deriving DecidableEq

/-- `fixed_costs`: initial value plus the optional `changes` map
`period_i -> value`, modelled as an association list from the period index
`i` to the override value. -/
structure FixedCostsCfg where
  initial_value : ℚ
  changes : Option (List (ℕ × ℚ))
  deriving DecidableEq

/-- `cogs` section. -/
structure CogsCfg where
  variable_costs : StreamCfg
  fixed_costs : FixedCostsCfg
  deriving DecidableEq

/-- `operating_expenses.salaries` components. -/
structure SalariesCfg where
  total_salaries : ℚ
  benefits : ℚ
  payroll_taxes : ℚ
  processing_fees : ℚ
  bonuses : ℚ
  commissions : ℚ
  deriving DecidableEq

/-- `operating_expenses` section. -/
structure OpexCfg where
  ga_expenses : ℚ
  salaries : SalariesCfg
  deriving DecidableEq

/-- `other_income_expenses` section (all stored as plain numbers in the
config, e.g. `interest_income: 1000`, `interest_expense: 430`). -/
structure OtherCfg where
  interest_income : ℚ
  other_income : ℚ
  interest_expense : ℚ
  bad_debt : ℚ
  deriving DecidableEq

/-- `depreciation_amortization` section. -/
structure DACfg where
  depreciation : ℚ
  amortization : ℚ
  deriving DecidableEq

/-- `taxes` section. -/
structure TaxesCfg where
  income_taxes : ℚ
  deriving DecidableEq

/-- The whole `income_statement` config group. -/
structure IncomeConfig where
  revenue_streams : RevenueStreams
  sales_returns : SalesReturnsCfg
  cogs : CogsCfg
  operating_expenses : OpexCfg
  other_income_expenses : OtherCfg
  depreciation_amortization : DACfg
  taxes : TaxesCfg
  deriving DecidableEq

/-- `balance_sheet.beginning_balances` (period "-1" values; note the config
has no deferred-income beginning balance). -/
structure BeginningBalances where
  cash : ℚ
  inventory : ℚ
  accounts_receivable : ℚ
  other_receivable : ℚ
  prepaid_expenses : ℚ
  prepaid_insurance : ℚ
  unbilled_revenue : ℚ
  other_current_assets : ℚ
  accounts_payable : ℚ
  accrued_expenses : ℚ
  accrued_taxes : ℚ
  other_current_liabilities : ℚ
  deriving DecidableEq

/-- `period_values.other_current_assets_components`: five period-indexed
arrays. -/
structure OCAComponents where
  other_receivable : List ℚ
  prepaid_expenses : List ℚ
  prepaid_insurance : List ℚ
  unbilled_revenue : List ℚ
  other_current_assets : List ℚ
  deriving DecidableEq

/-- `balance_sheet.period_values`: explicit per-period arrays. -/
structure PeriodValues where
  inventory : List ℚ
  accounts_receivable : List ℚ
  accounts_payable : List ℚ
  accrued_expenses : List ℚ
  other_current_liabilities : List ℚ
  other_current_assets_components : OCAComponents
  deriving DecidableEq

/-- `balance_sheet.fixed_assets`. -/
structure FixedAssetsCfg where
  ppe_gross : ℚ
  intangibles_gross : ℚ
  deriving DecidableEq

/-- `balance_sheet.liabilities_constants`. -/
structure LiabConstants where
  credit_cards : ℚ
  notes_payable : ℚ
  deferred_income : ℚ
  accrued_taxes : ℚ
  long_term_debt : ℚ
  deferred_tax_liabilities : ℚ
  other_liabilities : ℚ
  deriving DecidableEq

/-- `balance_sheet.equity` constants. -/
structure EquityCfg where
  paid_in_capital : ℚ
  common_stock : ℚ
  preferred_stock : ℚ
  capital_round_1 : ℚ
  capital_round_2 : ℚ
  capital_round_3 : ℚ
  deriving DecidableEq

/-- The whole `balance_sheet` config group. -/
structure BalanceConfig where
  period_values : PeriodValues
  beginning_balances : BeginningBalances
  fixed_assets : FixedAssetsCfg
  liabilities_constants : LiabConstants
  equity : EquityCfg
  deriving DecidableEq

/-! ## Income Statement stage (`build_income_statement`) -/

/-- The geometric recurrence shared by the four revenue streams and
variable costs: `df.loc[0, c] = initial_value`;
`df.loc[i, c] = df.loc[i-1, c] * growth_rate`. -/
def stream (cfg : StreamCfg) : ℕ → ℚ
  | 0 => cfg.initial_value
  | i + 1 => stream cfg i * cfg.growth_rate

/-- Column `Revenue_Stream_1`. -/
def Revenue_Stream_1 (cfg : IncomeConfig) (i : ℕ) : ℚ :=
  stream cfg.revenue_streams.stream_1 i

/-- Column `Revenue_Stream_2`. -/
def Revenue_Stream_2 (cfg : IncomeConfig) (i : ℕ) : ℚ :=
  stream cfg.revenue_streams.stream_2 i

/-- Column `Revenue_Stream_3`. -/
def Revenue_Stream_3 (cfg : IncomeConfig) (i : ℕ) : ℚ :=
  stream cfg.revenue_streams.stream_3 i

/-- Column `Revenue_Stream_4`. -/
def Revenue_Stream_4 (cfg : IncomeConfig) (i : ℕ) : ℚ :=
  stream cfg.revenue_streams.stream_4 i

/-- The revenue-stream sum used by `Sales_Returns` and `Net_Revenue`. -/
def revenueSum (cfg : IncomeConfig) (i : ℕ) : ℚ :=
  Revenue_Stream_1 cfg i + Revenue_Stream_2 cfg i +
    Revenue_Stream_3 cfg i + Revenue_Stream_4 cfg i

/-- Column `Sales_Returns`: the whole column is set to
`-(sum of streams) * rate` and period 0 is then overridden with the
configured actual (`df.loc[0, 'Sales_Returns'] = ...initial_value`). -/
def Sales_Returns (cfg : IncomeConfig) (i : ℕ) : ℚ :=
  match i with
  | 0 => cfg.sales_returns.initial_value
  | i + 1 => -(revenueSum cfg (i + 1)) * cfg.sales_returns.rate

/-- Column `Net_Revenue` (computed after the period-0 override of
`Sales_Returns`). -/
def Net_Revenue (cfg : IncomeConfig) (i : ℕ) : ℚ :=
  revenueSum cfg i + Sales_Returns cfg i

/-- Column `Variable_Costs`: same geometric recurrence as revenue
streams. -/
def Variable_Costs (cfg : IncomeConfig) (i : ℕ) : ℚ :=
  stream cfg.cogs.variable_costs i

/-- Column `Fixed_Costs`, mirroring the source exactly: period 0 is the
initial value; for `i >= 1`, if the `changes` map has key `period_i` use
it, else if `i >= 5` and the map has key `period_5` use that, else the
initial value (and the initial value whenever no `changes` map exists). -/
def Fixed_Costs_at (cfg : FixedCostsCfg) : ℕ → ℚ
  | 0 => cfg.initial_value
  | i + 1 =>
    match cfg.changes with
    | none => cfg.initial_value
    | some changes =>
      match changes.lookup (i + 1) with
      | some v => v
      | none =>
        if 5 ≤ i + 1 then
          match changes.lookup 5 with
          | some v5 => v5
          | none => cfg.initial_value
        else cfg.initial_value

/-- Column `Fixed_Costs` of the income statement. -/
def Fixed_Costs (cfg : IncomeConfig) (i : ℕ) : ℚ :=
  Fixed_Costs_at cfg.cogs.fixed_costs i

/-- Column `Total_COGS`. -/
def Total_COGS (cfg : IncomeConfig) (i : ℕ) : ℚ :=
  Variable_Costs cfg i + Fixed_Costs cfg i

/-- Column `Gross_Profit`. -/
def Gross_Profit (cfg : IncomeConfig) (i : ℕ) : ℚ :=
  Net_Revenue cfg i - Total_COGS cfg i

/-- Pandas float division `a / b`, as used for `Gross_Margin_Pct`.
Pandas raises no fault: a zero divisor yields a non-finite float
(NaN when the numerator is also 0, plus-or-minus infinity otherwise),
modelled as `none`; a nonzero divisor yields the finite quotient,
modelled as `some (a / b)`. -/
def pdDiv (a b : ℚ) : Option ℚ :=
  if b = 0 then none else some (a / b)

/-- Column `Gross_Margin_Pct` (`df['Gross_Profit'] / df['Net_Revenue']`,
a plain elementwise pandas division with no zero guard). -/
def Gross_Margin_Pct (cfg : IncomeConfig) (i : ℕ) : Option ℚ :=
  pdDiv (Gross_Profit cfg i) (Net_Revenue cfg i)

/-- Column `GA_Expenses` (flat constant). -/
def GA_Expenses (cfg : IncomeConfig) (_ : ℕ) : ℚ :=
  cfg.operating_expenses.ga_expenses

/-- Column `Total_Salaries_Commissions` (flat sum of the six salary
components). -/
def Total_Salaries_Commissions (cfg : IncomeConfig) (_ : ℕ) : ℚ :=
  cfg.operating_expenses.salaries.total_salaries +
    cfg.operating_expenses.salaries.benefits +
    cfg.operating_expenses.salaries.payroll_taxes +
    cfg.operating_expenses.salaries.processing_fees +
    cfg.operating_expenses.salaries.bonuses +
    cfg.operating_expenses.salaries.commissions

/-- Column `Total_Operating_Expenses`. -/
def Total_Operating_Expenses (cfg : IncomeConfig) (i : ℕ) : ℚ :=
  GA_Expenses cfg i + Total_Salaries_Commissions cfg i

/-- Column `EBITDA`. -/
def EBITDA (cfg : IncomeConfig) (i : ℕ) : ℚ :=
  Gross_Profit cfg i - Total_Operating_Expenses cfg i

/-- Column `Total_Interest_DA`: the source sums all six items as they are
configured (`Interest_Income + Other_Income + Interest_Expense + Bad_Debt
+ Depreciation + Amortization`), with no sign flips. -/
def Total_Interest_DA (cfg : IncomeConfig) (_ : ℕ) : ℚ :=
  cfg.other_income_expenses.interest_income +
    cfg.other_income_expenses.other_income +
    cfg.other_income_expenses.interest_expense +
    cfg.other_income_expenses.bad_debt +
    cfg.depreciation_amortization.depreciation +
    cfg.depreciation_amortization.amortization

/-- Column `Net_Income_Before_Taxes` (`EBITDA - Total_Interest_DA`). -/
def Net_Income_Before_Taxes (cfg : IncomeConfig) (i : ℕ) : ℚ :=
  EBITDA cfg i - Total_Interest_DA cfg i

/-- Column `Net_Income` (`Net_Income_Before_Taxes - Income_Taxes`). -/
def Net_Income (cfg : IncomeConfig) (i : ℕ) : ℚ :=
  Net_Income_Before_Taxes cfg i - cfg.taxes.income_taxes

/-! ## Balance Sheet stage, first pass (`build_balance_sheet`) -/

/-- A period-indexed config array assigned as a column:
`df['C'] = values[:n_periods]`, read back at period `i`. For a
well-formed input (`n ≤ values.length`, the only case in which the
assignment succeeds — see `setColumn` for the error semantics of a
too-short array) and `i < n` this is `values[i]`. -/
def colOf (values : List ℚ) (n : ℕ) (i : ℕ) : ℚ :=
  (values.take n).getD i 0

/-- Column `Retained_Earnings`: `income_stmt['Net_Income'].cumsum()`. -/
def Retained_Earnings (icfg : IncomeConfig) : ℕ → ℚ
  | 0 => Net_Income icfg 0
  | i + 1 => Retained_Earnings icfg i + Net_Income icfg (i + 1)

/-- The balance-sheet table: one field per numeric column created by
`build_balance_sheet`, each a function of the period index (mirroring
`balance_sheet.loc[i, 'Column']` access by column name). -/
structure BalanceSheet where
  Inventory : ℕ → ℚ
  Accounts_Receivable : ℕ → ℚ
  Accounts_Payable : ℕ → ℚ
  Accrued_Expenses : ℕ → ℚ
  Other_Current_Liab : ℕ → ℚ
  Other_Current_Assets : ℕ → ℚ
  Cash : ℕ → ℚ
  PPE_Gross : ℕ → ℚ
  Accumulated_Depreciation : ℕ → ℚ
  PPE_Net : ℕ → ℚ
  Intangibles_Gross : ℕ → ℚ
  Accumulated_Amortization : ℕ → ℚ
  Intangibles_Net : ℕ → ℚ
  Total_Fixed_Assets : ℕ → ℚ
  Credit_Cards : ℕ → ℚ
  Notes_Payable : ℕ → ℚ
  Deferred_Income : ℕ → ℚ
  Accrued_Taxes : ℕ → ℚ
  Total_Current_Liabilities : ℕ → ℚ
  Long_Term_Debt : ℕ → ℚ
  Deferred_Tax_Liab : ℕ → ℚ
  Other_Liabilities : ℕ → ℚ
  Total_Long_Term_Liabilities : ℕ → ℚ
  Total_Liabilities : ℕ → ℚ
  Paid_In_Capital : ℕ → ℚ
  Common_Stock : ℕ → ℚ
  Preferred_Stock : ℕ → ℚ
  Capital_Round_1 : ℕ → ℚ
  Capital_Round_2 : ℕ → ℚ
  Capital_Round_3 : ℕ → ℚ
  Retained_Earnings : ℕ → ℚ
  Total_Equity : ℕ → ℚ

/-- First-pass balance sheet (`build_balance_sheet`): verbatim
period-indexed inputs for working-capital lines, computed fixed-asset and
total lines, `Cash` left as the `0.0` placeholder. -/
def build_balance_sheet (icfg : IncomeConfig) (bcfg : BalanceConfig)
    (n : ℕ) : BalanceSheet where
  Inventory i := colOf bcfg.period_values.inventory n i
  Accounts_Receivable i := colOf bcfg.period_values.accounts_receivable n i
  Accounts_Payable i := colOf bcfg.period_values.accounts_payable n i
  Accrued_Expenses i := colOf bcfg.period_values.accrued_expenses n i
  Other_Current_Liab i := colOf bcfg.period_values.other_current_liabilities n i
  Other_Current_Assets i :=
    bcfg.period_values.other_current_assets_components.other_receivable.getD i 0 +
      bcfg.period_values.other_current_assets_components.prepaid_expenses.getD i 0 +
      bcfg.period_values.other_current_assets_components.prepaid_insurance.getD i 0 +
      bcfg.period_values.other_current_assets_components.unbilled_revenue.getD i 0 +
      bcfg.period_values.other_current_assets_components.other_current_assets.getD i 0
  Cash _ := 0
  PPE_Gross _ := bcfg.fixed_assets.ppe_gross
  Accumulated_Depreciation i :=
    -icfg.depreciation_amortization.depreciation * (i + 1)
  PPE_Net i :=
    bcfg.fixed_assets.ppe_gross +
      -icfg.depreciation_amortization.depreciation * (i + 1)
  Intangibles_Gross _ := bcfg.fixed_assets.intangibles_gross
  Accumulated_Amortization i :=
    -icfg.depreciation_amortization.amortization * (i + 1)
  Intangibles_Net i :=
    bcfg.fixed_assets.intangibles_gross +
      -icfg.depreciation_amortization.amortization * (i + 1)
  Total_Fixed_Assets i :=
    (bcfg.fixed_assets.ppe_gross +
        -icfg.depreciation_amortization.depreciation * (i + 1)) +
      (bcfg.fixed_assets.intangibles_gross +
        -icfg.depreciation_amortization.amortization * (i + 1))
  Credit_Cards _ := bcfg.liabilities_constants.credit_cards
  Notes_Payable _ := bcfg.liabilities_constants.notes_payable
  Deferred_Income _ := bcfg.liabilities_constants.deferred_income
  Accrued_Taxes _ := bcfg.liabilities_constants.accrued_taxes
  Total_Current_Liabilities i :=
    colOf bcfg.period_values.accounts_payable n i +
      bcfg.liabilities_constants.credit_cards +
      bcfg.liabilities_constants.notes_payable +
      bcfg.liabilities_constants.deferred_income +
      colOf bcfg.period_values.accrued_expenses n i +
      bcfg.liabilities_constants.accrued_taxes +
      colOf bcfg.period_values.other_current_liabilities n i
  Long_Term_Debt _ := bcfg.liabilities_constants.long_term_debt
  Deferred_Tax_Liab _ := bcfg.liabilities_constants.deferred_tax_liabilities
  Other_Liabilities _ := bcfg.liabilities_constants.other_liabilities
  Total_Long_Term_Liabilities _ :=
    bcfg.liabilities_constants.long_term_debt +
      bcfg.liabilities_constants.deferred_tax_liabilities +
      bcfg.liabilities_constants.other_liabilities
  Total_Liabilities i :=
    (colOf bcfg.period_values.accounts_payable n i +
        bcfg.liabilities_constants.credit_cards +
        bcfg.liabilities_constants.notes_payable +
        bcfg.liabilities_constants.deferred_income +
        colOf bcfg.period_values.accrued_expenses n i +
        bcfg.liabilities_constants.accrued_taxes +
        colOf bcfg.period_values.other_current_liabilities n i) +
      (bcfg.liabilities_constants.long_term_debt +
        bcfg.liabilities_constants.deferred_tax_liabilities +
        bcfg.liabilities_constants.other_liabilities)
  Paid_In_Capital _ := bcfg.equity.paid_in_capital
  Common_Stock _ := bcfg.equity.common_stock
  Preferred_Stock _ := bcfg.equity.preferred_stock
  Capital_Round_1 _ := bcfg.equity.capital_round_1
  Capital_Round_2 _ := bcfg.equity.capital_round_2
  Capital_Round_3 _ := bcfg.equity.capital_round_3
  Retained_Earnings i := Retained_Earnings icfg i
  Total_Equity i :=
    bcfg.equity.paid_in_capital + bcfg.equity.common_stock +
      bcfg.equity.preferred_stock + bcfg.equity.capital_round_1 +
      bcfg.equity.capital_round_2 + bcfg.equity.capital_round_3 +
      Retained_Earnings icfg i

/-! ## Cash Flow stage (`build_cash_flow_statement`)

Each working-capital change reads the first-pass balance sheet by column
name; period 0 compares against beginning balances from the config (except
`Change_Deferred_Income`, whose period-0 prior is the literal `5000` in the
source), later periods compare against period `i-1` of the balance
sheet. -/

/-- Column `Change_AR` (asset convention: prior minus current). -/
def Change_AR (bcfg : BalanceConfig) (bs : BalanceSheet) : ℕ → ℚ
  | 0 => bcfg.beginning_balances.accounts_receivable - bs.Accounts_Receivable 0
  | i + 1 => bs.Accounts_Receivable i - bs.Accounts_Receivable (i + 1)

/-- Column `Change_Inventory`. -/
def Change_Inventory (bcfg : BalanceConfig) (bs : BalanceSheet) : ℕ → ℚ
  | 0 => bcfg.beginning_balances.inventory - bs.Inventory 0
  | i + 1 => bs.Inventory i - bs.Inventory (i + 1)

/-- The period-0 beginning balance of other current assets: sum of the five
beginning-balance components. -/
def beginning_oca (bcfg : BalanceConfig) : ℚ :=
  bcfg.beginning_balances.other_receivable +
    bcfg.beginning_balances.prepaid_expenses +
    bcfg.beginning_balances.prepaid_insurance +
    bcfg.beginning_balances.unbilled_revenue +
    bcfg.beginning_balances.other_current_assets

/-- Column `Change_Other_Current_Assets`. -/
def Change_Other_Current_Assets (bcfg : BalanceConfig) (bs : BalanceSheet) : ℕ → ℚ
  | 0 => beginning_oca bcfg - bs.Other_Current_Assets 0
  | i + 1 => bs.Other_Current_Assets i - bs.Other_Current_Assets (i + 1)

/-- Column `Change_AP` (liability convention: current minus prior). -/
def Change_AP (bcfg : BalanceConfig) (bs : BalanceSheet) : ℕ → ℚ
  | 0 => bs.Accounts_Payable 0 - bcfg.beginning_balances.accounts_payable
  | i + 1 => bs.Accounts_Payable (i + 1) - bs.Accounts_Payable i

/-- Column `Change_Deferred_Income`: the period-0 prior balance is the
hardcoded literal `5000` in the source (`balance_sheet.loc[i,
'Deferred_Income'] - 5000`), not a configured beginning balance. -/
def Change_Deferred_Income (bs : BalanceSheet) : ℕ → ℚ
  | 0 => bs.Deferred_Income 0 - 5000
  | i + 1 => bs.Deferred_Income (i + 1) - bs.Deferred_Income i

/-- The beginning-balance sum for the aggregated other-current-liabilities
delta: accrued expenses + accrued taxes + other current liabilities. -/
def beginning_ocl (bcfg : BalanceConfig) : ℚ :=
  bcfg.beginning_balances.accrued_expenses +
    bcfg.beginning_balances.accrued_taxes +
    bcfg.beginning_balances.other_current_liabilities

/-- The per-period sum aggregated into `Change_Other_Current_Liab`. -/
def ocl_sum (bs : BalanceSheet) (i : ℕ) : ℚ :=
  bs.Accrued_Expenses i + bs.Accrued_Taxes i + bs.Other_Current_Liab i

/-- Column `Change_Other_Current_Liab`: one aggregated delta over accrued
expenses, accrued taxes and other current liabilities. -/
def Change_Other_Current_Liab (bcfg : BalanceConfig) (bs : BalanceSheet) : ℕ → ℚ
  | 0 => ocl_sum bs 0 - beginning_ocl bcfg
  | i + 1 => ocl_sum bs (i + 1) - ocl_sum bs i

/-- Column `Cash_from_Operations`. -/
def Cash_from_Operations (icfg : IncomeConfig) (bcfg : BalanceConfig)
    (bs : BalanceSheet) (i : ℕ) : ℚ :=
  Net_Income icfg i + icfg.depreciation_amortization.depreciation +
    icfg.depreciation_amortization.amortization +
    Change_AR bcfg bs i + Change_Inventory bcfg bs i +
    Change_Other_Current_Assets bcfg bs i +
    Change_AP bcfg bs i + Change_Deferred_Income bs i +
    Change_Other_Current_Liab bcfg bs i

/-- Column `Net_Change_Cash`: operations plus the investing and financing
sections, which are identically 0 in the source. -/
def Net_Change_Cash (icfg : IncomeConfig) (bcfg : BalanceConfig)
    (bs : BalanceSheet) (i : ℕ) : ℚ :=
  Cash_from_Operations icfg bcfg bs i + -(0 : ℚ) + ((0 : ℚ) + 0)

/-- Column `Ending_Cash`: `Ending_Cash[i] = Beginning_Cash[i] +
Net_Change_Cash[i]`, with `Beginning_Cash[0]` the configured beginning cash
and `Beginning_Cash[i] = Ending_Cash[i-1]` afterwards. -/
def Ending_Cash (icfg : IncomeConfig) (bcfg : BalanceConfig)
    (bs : BalanceSheet) : ℕ → ℚ
  | 0 => bcfg.beginning_balances.cash + Net_Change_Cash icfg bcfg bs 0
  | i + 1 => Ending_Cash icfg bcfg bs i + Net_Change_Cash icfg bcfg bs (i + 1)

/-- Column `Beginning_Cash`. -/
def Beginning_Cash (icfg : IncomeConfig) (bcfg : BalanceConfig)
    (bs : BalanceSheet) : ℕ → ℚ
  | 0 => bcfg.beginning_balances.cash
  | i + 1 => Ending_Cash icfg bcfg bs i

/-- The cash-flow table: one field per numeric column created by
`build_cash_flow_statement`. -/
structure CashFlow where
  Net_Income : ℕ → ℚ
  Depreciation : ℕ → ℚ
  Amortization : ℕ → ℚ
  Change_AR : ℕ → ℚ
  Change_Inventory : ℕ → ℚ
  Change_Other_Current_Assets : ℕ → ℚ
  Change_AP : ℕ → ℚ
  Change_Deferred_Income : ℕ → ℚ
  Change_Other_Current_Liab : ℕ → ℚ
  Cash_from_Operations : ℕ → ℚ
  Change_Fixed_Assets : ℕ → ℚ
  Cash_from_Investing : ℕ → ℚ
  Change_Credit_Cards_Notes : ℕ → ℚ
  Change_Debt : ℕ → ℚ
  Cash_from_Financing : ℕ → ℚ
  Net_Change_Cash : ℕ → ℚ
  Beginning_Cash : ℕ → ℚ
  Ending_Cash : ℕ → ℚ

/-- The Cash Flow statement (`build_cash_flow_statement`): reads
`Net_Income`, `Depreciation` and `Amortization` from the income statement
and the working-capital lines of the first-pass balance sheet; it never
reads the balance sheet's `Cash` column. -/
def build_cash_flow_statement (icfg : IncomeConfig) (bcfg : BalanceConfig)
    (bs : BalanceSheet) : CashFlow where
  Net_Income i := Net_Income icfg i
  Depreciation _ := icfg.depreciation_amortization.depreciation
  Amortization _ := icfg.depreciation_amortization.amortization
  Change_AR i := Change_AR bcfg bs i
  Change_Inventory i := Change_Inventory bcfg bs i
  Change_Other_Current_Assets i := Change_Other_Current_Assets bcfg bs i
  Change_AP i := Change_AP bcfg bs i
  Change_Deferred_Income i := Change_Deferred_Income bs i
  Change_Other_Current_Liab i := Change_Other_Current_Liab bcfg bs i
  Cash_from_Operations i := Cash_from_Operations icfg bcfg bs i
  Change_Fixed_Assets _ := 0
  Cash_from_Investing _ := -(0 : ℚ)
  Change_Credit_Cards_Notes _ := 0
  Change_Debt _ := 0
  Cash_from_Financing _ := (0 : ℚ) + 0
  Net_Change_Cash i := Net_Change_Cash icfg bcfg bs i
  Beginning_Cash i := Beginning_Cash icfg bcfg bs i
  Ending_Cash i := Ending_Cash icfg bcfg bs i

/-! ## Main assembly (`main`): back-fill cash, totals, balance check -/

/-- The balance sheet after `main` back-fills it: the first-pass columns
with `Cash` overwritten by the cash-flow `Ending_Cash`, plus the four
derived columns added in `main`. -/
structure FinalBalanceSheet extends BalanceSheet where
  Total_Current_Assets : ℕ → ℚ
  Total_Assets : ℕ → ℚ
  Total_Liabilities_Equity : ℕ → ℚ
  Balance_Check : ℕ → ℚ

/-- `main`'s balance-sheet update: `balance_sheet['Cash'] =
cash_flow_stmt['Ending_Cash']`, then the four derived columns; every other
column keeps its first-pass value. -/
def finalBalanceSheet (icfg : IncomeConfig) (bcfg : BalanceConfig)
    (n : ℕ) : FinalBalanceSheet :=
  { build_balance_sheet icfg bcfg n with
    Cash :=
      (build_cash_flow_statement icfg bcfg
        (build_balance_sheet icfg bcfg n)).Ending_Cash
    Total_Current_Assets := fun i =>
      (build_cash_flow_statement icfg bcfg
            (build_balance_sheet icfg bcfg n)).Ending_Cash i +
        (build_balance_sheet icfg bcfg n).Accounts_Receivable i +
        (build_balance_sheet icfg bcfg n).Inventory i +
        (build_balance_sheet icfg bcfg n).Other_Current_Assets i
    Total_Assets := fun i =>
      ((build_cash_flow_statement icfg bcfg
              (build_balance_sheet icfg bcfg n)).Ending_Cash i +
          (build_balance_sheet icfg bcfg n).Accounts_Receivable i +
          (build_balance_sheet icfg bcfg n).Inventory i +
          (build_balance_sheet icfg bcfg n).Other_Current_Assets i) +
        (build_balance_sheet icfg bcfg n).Total_Fixed_Assets i
    Total_Liabilities_Equity := fun i =>
      (build_balance_sheet icfg bcfg n).Total_Liabilities i +
        (build_balance_sheet icfg bcfg n).Total_Equity i
    Balance_Check := fun i =>
      (((build_cash_flow_statement icfg bcfg
              (build_balance_sheet icfg bcfg n)).Ending_Cash i +
          (build_balance_sheet icfg bcfg n).Accounts_Receivable i +
          (build_balance_sheet icfg bcfg n).Inventory i +
          (build_balance_sheet icfg bcfg n).Other_Current_Assets i) +
        (build_balance_sheet icfg bcfg n).Total_Fixed_Assets i) -
        ((build_balance_sheet icfg bcfg n).Total_Liabilities i +
          (build_balance_sheet icfg bcfg n).Total_Equity i) }

/-- `balance_sheet['Balance_Check'].abs().max()`: the maximum absolute
imbalance across the `n` periods. -/
def max_imbalance (icfg : IncomeConfig) (bcfg : BalanceConfig) (n : ℕ) : ℚ :=
  (List.range n).foldl
    (fun acc i => max acc |(finalBalanceSheet icfg bcfg n).Balance_Check i|) 0

/-- The data carried by the end-of-run balance warning: the source prints
`WARNING ... Max imbalance: $...` exactly when `max_imbalance > 0.01`, and
the only run-dependent datum in the message is `max_imbalance` itself. -/
def balance_warning (icfg : IncomeConfig) (bcfg : BalanceConfig)
    (n : ℕ) : Option ℚ :=
  if max_imbalance icfg bcfg n > 1 / 100 then some (max_imbalance icfg bcfg n)
  else none

/-- The periods at which the maximum absolute imbalance is attained (the
"period(s) where it occurs"). Not computed by the source; used to check
what the warning can carry. -/
def violation_periods (icfg : IncomeConfig) (bcfg : BalanceConfig)
    (n : ℕ) : List ℕ :=
  (List.range n).filter
    (fun i =>
      decide (|(finalBalanceSheet icfg bcfg n).Balance_Check i| =
        max_imbalance icfg bcfg n))

/-- Everything `main` emits: the three statement tables (all exported to
CSV before the balance check runs) and the balance-check report. The
income statement is carried by its line-item functions, represented here
by its `Net_Income` column together with the config that determines every
other column. -/
structure EngineOutput where
  income_Net_Income : ℕ → ℚ
  balance : FinalBalanceSheet
  cash_flow : CashFlow
  warning : Option ℚ

/-- The engine run (`main` minus I/O): builds the statements in stage
order, back-fills cash, exports all three tables, then evaluates the
balance check as a report. -/
def run_engine (icfg : IncomeConfig) (bcfg : BalanceConfig)
    (n : ℕ) : EngineOutput :=
  { income_Net_Income := Net_Income icfg
    balance := finalBalanceSheet icfg bcfg n
    cash_flow :=
      build_cash_flow_statement icfg bcfg (build_balance_sheet icfg bcfg n)
    warning := balance_warning icfg bcfg n }

/-! ## Column assignment and dictionary access semantics

`build_balance_sheet` assigns period-indexed config arrays with
`df['C'] = config_list[:n_periods]`: the slice silently drops entries
beyond `n_periods`, and pandas raises a length-mismatch `ValueError` only
when the sliced list is shorter than the index. `config['key']` on a
missing key raises `KeyError` at the point of access. -/

/-- `df['C'] = values[:n]`: `Except.ok` with the (possibly truncated)
column, or the pandas length-mismatch error when the sliced list is too
short. -/
def setColumn (values : List ℚ) (n : ℕ) : Except String (List ℚ) :=
  if (values.take n).length = n then Except.ok (values.take n)
  else Except.error "Length of values does not match length of index"

/-- Python `d['key']`: the value, or a `KeyError` raised at the point of
access. -/
def dictGet (d : List (String × ℚ)) (key : String) : Except String ℚ :=
  match d.lookup key with
  | some v => Except.ok v
  | none => Except.error ("KeyError: " ++ key)

/-! ## Spec-side definitions (for comparison with the code)

These two definitions follow the specification's words, not the source;
they exist only to be compared against the code-derived definitions
above. -/

/-- Modelled from the spec: fixed costs resolve via the configured
override with the largest trigger period that is at most the current
period, falling back to the initial value ("the override with the largest
trigger period wins"). -/
def Fixed_Costs_spec (cfg : FixedCostsCfg) (i : ℕ) : ℚ :=
  if i = 0 then cfg.initial_value
  else
    match cfg.changes with
    | none => cfg.initial_value
    | some changes =>
      match (changes.filter (fun kv => kv.1 ≤ i)).argmax (fun kv => kv.1) with
      | some kv => kv.2
      | none => cfg.initial_value

/-- Modelled from the spec: Total Other Income/Expense with each item
contributing its natural sign (income positive, expense and D&A
negative). -/
def Total_Other_spec (cfg : IncomeConfig) (_ : ℕ) : ℚ :=
  cfg.other_income_expenses.interest_income +
    cfg.other_income_expenses.other_income -
    cfg.other_income_expenses.interest_expense -
    cfg.other_income_expenses.bad_debt -
    cfg.depreciation_amortization.depreciation -
    cfg.depreciation_amortization.amortization

/-- Modelled from the spec: Net Income Before Taxes = EBITDA + Total Other
Income/Expense. -/
def NIBT_spec (cfg : IncomeConfig) (i : ℕ) : ℚ :=
  EBITDA cfg i + Total_Other_spec cfg i

/-! ## Concrete assumption sets used to evaluate the engine -/

/-- A stream with zero initial value and growth. -/
def zeroStream : StreamCfg :=
  { initial_value := 0, growth_rate := 0 }

/-- An all-zero income-statement config (no fixed-cost overrides). -/
def icfg0 : IncomeConfig :=
  { revenue_streams :=
      { stream_1 := zeroStream, stream_2 := zeroStream
        stream_3 := zeroStream, stream_4 := zeroStream }
    sales_returns := { initial_value := 0, rate := 0 }
    cogs :=
      { variable_costs := zeroStream
        fixed_costs := { initial_value := 0, changes := none } }
    operating_expenses :=
      { ga_expenses := 0
        salaries :=
          { total_salaries := 0, benefits := 0, payroll_taxes := 0
            processing_fees := 0, bonuses := 0, commissions := 0 } }
    other_income_expenses :=
      { interest_income := 0, other_income := 0
        interest_expense := 0, bad_debt := 0 }
    depreciation_amortization := { depreciation := 0, amortization := 0 }
    taxes := { income_taxes := 0 } }

/-- An all-zero balance-sheet config. -/
def bcfg0 : BalanceConfig :=
  { period_values :=
      { inventory := [], accounts_receivable := [], accounts_payable := []
        accrued_expenses := [], other_current_liabilities := []
        other_current_assets_components :=
          { other_receivable := [], prepaid_expenses := []
            prepaid_insurance := [], unbilled_revenue := []
            other_current_assets := [] } }
    beginning_balances :=
      { cash := 0, inventory := 0, accounts_receivable := 0
        other_receivable := 0, prepaid_expenses := 0, prepaid_insurance := 0
        unbilled_revenue := 0, other_current_assets := 0
        accounts_payable := 0, accrued_expenses := 0, accrued_taxes := 0
        other_current_liabilities := 0 }
    fixed_assets := { ppe_gross := 0, intangibles_gross := 0 }
    liabilities_constants :=
      { credit_cards := 0, notes_payable := 0, deferred_income := 0
        accrued_taxes := 0, long_term_debt := 0
        deferred_tax_liabilities := 0, other_liabilities := 0 }
    equity :=
      { paid_in_capital := 0, common_stock := 0, preferred_stock := 0
        capital_round_1 := 0, capital_round_2 := 0, capital_round_3 := 0 } }

/-- All-zero period-value arrays of length 1: a well-formed
`period_values` group for a 1-period run (every array has exactly
`num_periods` entries, so every slice-assignment and component read in
`build_balance_sheet` succeeds). -/
def pv1 : PeriodValues :=
  { inventory := [0], accounts_receivable := [0], accounts_payable := [0]
    accrued_expenses := [0], other_current_liabilities := [0]
    other_current_assets_components :=
      { other_receivable := [0], prepaid_expenses := [0]
        prepaid_insurance := [0], unbilled_revenue := [0]
        other_current_assets := [0] } }

/-- All-zero period-value arrays of length 2: well-formed for both a
1-period run (the slice `[:1]` truncates them) and a 2-period run. -/
def pv2 : PeriodValues :=
  { inventory := [0, 0], accounts_receivable := [0, 0]
    accounts_payable := [0, 0], accrued_expenses := [0, 0]
    other_current_liabilities := [0, 0]
    other_current_assets_components :=
      { other_receivable := [0, 0], prepaid_expenses := [0, 0]
        prepaid_insurance := [0, 0], unbilled_revenue := [0, 0]
        other_current_assets := [0, 0] } }

/-- The fixed-cost config from the claim: initial 20000, overrides at
trigger periods 5 (35000) and 8 (40000). -/
def fcC1 : FixedCostsCfg :=
  { initial_value := 20000, changes := some [(5, 35000), (8, 40000)] }

/-- Zero income config with the sample other-income/expense and D&A
constants (`interest_income` 1000, `other_income` 230, `interest_expense`
430, `bad_debt` 350, depreciation 120, amortization 100). -/
def icfgC2 : IncomeConfig :=
  { icfg0 with
    other_income_expenses :=
      { interest_income := 1000, other_income := 230
        interest_expense := 430, bad_debt := 350 }
    depreciation_amortization := { depreciation := 120, amortization := 100 } }

/-- Balance config in which every beginning-balance field is 8000 and the
deferred-income liability constant is also 8000; its period-value arrays
all have length 1, so a 1-period engine run completes on it. -/
def bcfgC4 : BalanceConfig :=
  { bcfg0 with
    period_values := pv1
    beginning_balances :=
      { cash := 8000, inventory := 8000, accounts_receivable := 8000
        other_receivable := 8000, prepaid_expenses := 8000
        prepaid_insurance := 8000, unbilled_revenue := 8000
        other_current_assets := 8000, accounts_payable := 8000
        accrued_expenses := 8000, accrued_taxes := 8000
        other_current_liabilities := 8000 }
    liabilities_constants := { bcfg0.liabilities_constants with deferred_income := 8000 } }

/-- Balance config whose only nonzero entry is a beginning accrued-taxes
balance of 5: the engine then produces a constant balance-sheet imbalance
in every period. Its period-value arrays all have length 2, so both a
1-period run (the `[:1]` slice truncates them) and a 2-period run
complete on it. -/
def bcfgW : BalanceConfig :=
  { bcfg0 with
    period_values := pv2
    beginning_balances := { bcfg0.beginning_balances with accrued_taxes := 5 } }

/-- The all-zero first-pass balance-sheet table. -/
def bsB : BalanceSheet where
  Inventory _ := 0
  Accounts_Receivable _ := 0
  Accounts_Payable _ := 0
  Accrued_Expenses _ := 0
  Other_Current_Liab _ := 0
  Other_Current_Assets _ := 0
  Cash _ := 0
  PPE_Gross _ := 0
  Accumulated_Depreciation _ := 0
  PPE_Net _ := 0
  Intangibles_Gross _ := 0
  Accumulated_Amortization _ := 0
  Intangibles_Net _ := 0
  Total_Fixed_Assets _ := 0
  Credit_Cards _ := 0
  Notes_Payable _ := 0
  Deferred_Income _ := 0
  Accrued_Taxes _ := 0
  Total_Current_Liabilities _ := 0
  Long_Term_Debt _ := 0
  Deferred_Tax_Liab _ := 0
  Other_Liabilities _ := 0
  Total_Long_Term_Liabilities _ := 0
  Total_Liabilities _ := 0
  Paid_In_Capital _ := 0
  Common_Stock _ := 0
  Preferred_Stock _ := 0
  Capital_Round_1 _ := 0
  Capital_Round_2 _ := 0
  Capital_Round_3 _ := 0
  Retained_Earnings _ := 0
  Total_Equity _ := 0

/-- A first-pass balance-sheet table identical to `bsB` except in its
`Cash` column. -/
def bsA : BalanceSheet :=
  { bsB with Cash := fun i => (7 : ℚ) + i }

/-- Two first-pass balance sheets differ at most in their `Cash` column:
every other column is equal. -/
def agree_except_cash (bs1 bs2 : BalanceSheet) : Prop :=
  bs1.Inventory = bs2.Inventory ∧
  bs1.Accounts_Receivable = bs2.Accounts_Receivable ∧
  bs1.Accounts_Payable = bs2.Accounts_Payable ∧
  bs1.Accrued_Expenses = bs2.Accrued_Expenses ∧
  bs1.Other_Current_Liab = bs2.Other_Current_Liab ∧
  bs1.Other_Current_Assets = bs2.Other_Current_Assets ∧
  bs1.PPE_Gross = bs2.PPE_Gross ∧
  bs1.Accumulated_Depreciation = bs2.Accumulated_Depreciation ∧
  bs1.PPE_Net = bs2.PPE_Net ∧
  bs1.Intangibles_Gross = bs2.Intangibles_Gross ∧
  bs1.Accumulated_Amortization = bs2.Accumulated_Amortization ∧
  bs1.Intangibles_Net = bs2.Intangibles_Net ∧
  bs1.Total_Fixed_Assets = bs2.Total_Fixed_Assets ∧
  bs1.Credit_Cards = bs2.Credit_Cards ∧
  bs1.Notes_Payable = bs2.Notes_Payable ∧
  bs1.Deferred_Income = bs2.Deferred_Income ∧
  bs1.Accrued_Taxes = bs2.Accrued_Taxes ∧
  bs1.Total_Current_Liabilities = bs2.Total_Current_Liabilities ∧
  bs1.Long_Term_Debt = bs2.Long_Term_Debt ∧
  bs1.Deferred_Tax_Liab = bs2.Deferred_Tax_Liab ∧
  bs1.Other_Liabilities = bs2.Other_Liabilities ∧
  bs1.Total_Long_Term_Liabilities = bs2.Total_Long_Term_Liabilities ∧
  bs1.Total_Liabilities = bs2.Total_Liabilities ∧
  bs1.Paid_In_Capital = bs2.Paid_In_Capital ∧
  bs1.Common_Stock = bs2.Common_Stock ∧
  bs1.Preferred_Stock = bs2.Preferred_Stock ∧
  bs1.Capital_Round_1 = bs2.Capital_Round_1 ∧
  bs1.Capital_Round_2 = bs2.Capital_Round_2 ∧
  bs1.Capital_Round_3 = bs2.Capital_Round_3 ∧
  bs1.Retained_Earnings = bs2.Retained_Earnings ∧
  bs1.Total_Equity = bs2.Total_Equity

/-! ## Theorems about the engine -/

/-- C8: every revenue stream and the variable-cost line start at the
configured `initial_value` at period 0 and grow by the configured
`growth_rate` each later period
(`stream[p] = stream[p-1] * growth_rate`). -/
theorem C8_growth_recurrence (cfg : IncomeConfig) (i : ℕ) :
    (Revenue_Stream_1 cfg 0 = cfg.revenue_streams.stream_1.initial_value ∧
      Revenue_Stream_1 cfg (i + 1) =
        Revenue_Stream_1 cfg i * cfg.revenue_streams.stream_1.growth_rate) ∧
    (Revenue_Stream_2 cfg 0 = cfg.revenue_streams.stream_2.initial_value ∧
      Revenue_Stream_2 cfg (i + 1) =
        Revenue_Stream_2 cfg i * cfg.revenue_streams.stream_2.growth_rate) ∧
    (Revenue_Stream_3 cfg 0 = cfg.revenue_streams.stream_3.initial_value ∧
      Revenue_Stream_3 cfg (i + 1) =
        Revenue_Stream_3 cfg i * cfg.revenue_streams.stream_3.growth_rate) ∧
    (Revenue_Stream_4 cfg 0 = cfg.revenue_streams.stream_4.initial_value ∧
      Revenue_Stream_4 cfg (i + 1) =
        Revenue_Stream_4 cfg i * cfg.revenue_streams.stream_4.growth_rate) ∧
    (Variable_Costs cfg 0 = cfg.cogs.variable_costs.initial_value ∧
      Variable_Costs cfg (i + 1) =
        Variable_Costs cfg i * cfg.cogs.variable_costs.growth_rate) :=
  ⟨⟨rfl, rfl⟩, ⟨rfl, rfl⟩, ⟨rfl, rfl⟩, ⟨rfl, rfl⟩, ⟨rfl, rfl⟩⟩

/-- C2 (counterexample): with the sample constants (interest income 1000,
other income 230, interest expense 430, bad debt 350, depreciation 120,
amortization 100, everything else zero so EBITDA = 0) the code computes
`Net_Income_Before_Taxes = -2230`, while the claim (income items positive,
expense and D&A items negative, NIBT = EBITDA + total) predicts `230`:
the code sums all six items as positive and subtracts the total. -/
theorem C2_counterexample :
    Net_Income_Before_Taxes icfgC2 0 = -2230 ∧ NIBT_spec icfgC2 0 = 230 ∧
    Net_Income_Before_Taxes icfgC2 0 ≠ NIBT_spec icfgC2 0 := by
  norm_num [Net_Income_Before_Taxes, NIBT_spec, Total_Other_spec, EBITDA,
    Gross_Profit, Net_Revenue, revenueSum, Sales_Returns, Total_COGS,
    Variable_Costs, Fixed_Costs, Fixed_Costs_at, stream, Revenue_Stream_1,
    Revenue_Stream_2, Revenue_Stream_3, Revenue_Stream_4,
    Total_Operating_Expenses, GA_Expenses, Total_Salaries_Commissions,
    Total_Interest_DA, icfgC2, icfg0, zeroStream]

/-- C2 (amended): `Total_Interest_DA` is the sum of all six configured
items taken with positive sign, and `Net_Income_Before_Taxes` is EBITDA
minus that total (so configured-positive income items decrease pre-tax
income). -/
theorem C2_total_interest_da (cfg : IncomeConfig) (i : ℕ) :
    Total_Interest_DA cfg i =
      cfg.other_income_expenses.interest_income +
        cfg.other_income_expenses.other_income +
        cfg.other_income_expenses.interest_expense +
        cfg.other_income_expenses.bad_debt +
        cfg.depreciation_amortization.depreciation +
        cfg.depreciation_amortization.amortization ∧
    Net_Income_Before_Taxes cfg i = EBITDA cfg i - Total_Interest_DA cfg i :=
  ⟨rfl, rfl⟩

/-- C3 (counterexample): with all revenue streams and the period-0 sales
returns configured to 0, `Net_Revenue[0] = 0` and the plain pandas
division produces a non-finite value (NaN, modelled `none`), not 0. -/
theorem C3_counterexample :
    Net_Revenue icfg0 0 = 0 ∧ Gross_Margin_Pct icfg0 0 = none ∧
    Gross_Margin_Pct icfg0 0 ≠ some 0 := by
  have h : Net_Revenue icfg0 0 = 0 := by
    norm_num [Net_Revenue, revenueSum, Sales_Returns, Revenue_Stream_1,
      Revenue_Stream_2, Revenue_Stream_3, Revenue_Stream_4, stream, icfg0,
      zeroStream]
  have h2 : Gross_Margin_Pct icfg0 0 = none := by
    simp [Gross_Margin_Pct, pdDiv, h]
  exact ⟨h, h2, by simp [h2]⟩

/-- C3 (amended): the gross-margin division never faults: when
`Net_Revenue` is nonzero it yields `Gross_Profit / Net_Revenue`, and when
`Net_Revenue` is exactly 0 it yields pandas' non-finite marker (NaN or
infinity, modelled `none`) rather than 0. -/
theorem C3_gross_margin (cfg : IncomeConfig) (i : ℕ) :
    (Net_Revenue cfg i ≠ 0 →
      Gross_Margin_Pct cfg i = some (Gross_Profit cfg i / Net_Revenue cfg i)) ∧
    (Net_Revenue cfg i = 0 → Gross_Margin_Pct cfg i = none) := by
  constructor <;> intro h <;> simp [Gross_Margin_Pct, pdDiv, h]

/-- C3 (witness): the amended theorem applied at the all-zero config. -/
theorem C3_gross_margin_witness :
    Net_Revenue icfg0 0 = 0 ∧ Gross_Margin_Pct icfg0 0 = none := by
  have h : Net_Revenue icfg0 0 = 0 := by
    norm_num [Net_Revenue, revenueSum, Sales_Returns, Revenue_Stream_1,
      Revenue_Stream_2, Revenue_Stream_3, Revenue_Stream_4, stream, icfg0,
      zeroStream]
  exact ⟨h, (C3_gross_margin icfg0 0).2 h⟩

/-- C1: evaluation of the code's fixed-cost column at the claim's inputs
(initial 20000, overrides at trigger periods 5 and 8). Periods 0..4 keep
the initial value and periods 6 and 8 match the claim, but at period 9 the
code falls back to the period-5 override (35000) because no exact
`period_9` key exists, while the claimed largest-trigger rule
(`Fixed_Costs_spec`) gives 40000. -/
theorem C1_fixed_costs_eval :
    Fixed_Costs_at fcC1 0 = 20000 ∧ Fixed_Costs_at fcC1 1 = 20000 ∧
    Fixed_Costs_at fcC1 2 = 20000 ∧ Fixed_Costs_at fcC1 3 = 20000 ∧
    Fixed_Costs_at fcC1 4 = 20000 ∧ Fixed_Costs_at fcC1 5 = 35000 ∧
    Fixed_Costs_at fcC1 6 = 35000 ∧ Fixed_Costs_at fcC1 8 = 40000 ∧
    Fixed_Costs_at fcC1 9 = 35000 ∧ Fixed_Costs_spec fcC1 9 = 40000 ∧
    Fixed_Costs_at fcC1 9 ≠ Fixed_Costs_spec fcC1 9 := by
  decide

/-- C4 (counterexample): in `bcfgC4` every beginning-balance field of the
assumption set equals 8000 and the balance sheet's `Deferred_Income`
column is 8000, yet the period-0 deferred-income change is
`8000 - 5000 = 3000`: the prior balance subtracted is the hardcoded 5000,
not any beginning balance of the assumption set (all of which are
8000). -/
theorem C4_counterexample :
    bcfgC4.beginning_balances.cash = 8000 ∧
    bcfgC4.beginning_balances.inventory = 8000 ∧
    bcfgC4.beginning_balances.accounts_receivable = 8000 ∧
    bcfgC4.beginning_balances.other_receivable = 8000 ∧
    bcfgC4.beginning_balances.prepaid_expenses = 8000 ∧
    bcfgC4.beginning_balances.prepaid_insurance = 8000 ∧
    bcfgC4.beginning_balances.unbilled_revenue = 8000 ∧
    bcfgC4.beginning_balances.other_current_assets = 8000 ∧
    bcfgC4.beginning_balances.accounts_payable = 8000 ∧
    bcfgC4.beginning_balances.accrued_expenses = 8000 ∧
    bcfgC4.beginning_balances.accrued_taxes = 8000 ∧
    bcfgC4.beginning_balances.other_current_liabilities = 8000 ∧
    (build_balance_sheet icfg0 bcfgC4 1).Deferred_Income 0 = 8000 ∧
    Change_Deferred_Income (build_balance_sheet icfg0 bcfgC4 1) 0 = 3000 ∧
    Change_Deferred_Income (build_balance_sheet icfg0 bcfgC4 1) 0 ≠
      (build_balance_sheet icfg0 bcfgC4 1).Deferred_Income 0 - 8000 := by
  norm_num [Change_Deferred_Income, build_balance_sheet, bcfgC4, bcfg0]

/-- C4 (amended): for receivables, inventory, other current assets,
payables and the aggregated other-current-liabilities line, the period-0
prior balance is the assumption set's beginning balance and the prior
balance for period p>0 is the balance-sheet value at p-1; for deferred
income the period-0 prior balance is the hardcoded constant 5000. -/
theorem C4_prior_balances (bcfg : BalanceConfig) (bs : BalanceSheet) (i : ℕ) :
    (Change_AR bcfg bs 0 =
        bcfg.beginning_balances.accounts_receivable - bs.Accounts_Receivable 0 ∧
      Change_AR bcfg bs (i + 1) =
        bs.Accounts_Receivable i - bs.Accounts_Receivable (i + 1)) ∧
    (Change_Inventory bcfg bs 0 =
        bcfg.beginning_balances.inventory - bs.Inventory 0 ∧
      Change_Inventory bcfg bs (i + 1) = bs.Inventory i - bs.Inventory (i + 1)) ∧
    (Change_Other_Current_Assets bcfg bs 0 =
        beginning_oca bcfg - bs.Other_Current_Assets 0 ∧
      Change_Other_Current_Assets bcfg bs (i + 1) =
        bs.Other_Current_Assets i - bs.Other_Current_Assets (i + 1)) ∧
    (Change_AP bcfg bs 0 =
        bs.Accounts_Payable 0 - bcfg.beginning_balances.accounts_payable ∧
      Change_AP bcfg bs (i + 1) =
        bs.Accounts_Payable (i + 1) - bs.Accounts_Payable i) ∧
    (Change_Other_Current_Liab bcfg bs 0 = ocl_sum bs 0 - beginning_ocl bcfg ∧
      Change_Other_Current_Liab bcfg bs (i + 1) =
        ocl_sum bs (i + 1) - ocl_sum bs i) ∧
    (Change_Deferred_Income bs 0 = bs.Deferred_Income 0 - 5000 ∧
      Change_Deferred_Income bs (i + 1) =
        bs.Deferred_Income (i + 1) - bs.Deferred_Income i) :=
  ⟨⟨rfl, rfl⟩, ⟨rfl, rfl⟩, ⟨rfl, rfl⟩, ⟨rfl, rfl⟩, ⟨rfl, rfl⟩, ⟨rfl, rfl⟩⟩

/-- C5: the cash recurrence `Ending_Cash[p] = Beginning_Cash[p] +
Net_Change_Cash[p]` with `Beginning_Cash[0]` the configured beginning cash
and `Beginning_Cash[p] = Ending_Cash[p-1]` for p>0; and after the
cash-flow stage `main` sets the balance sheet's `Cash` column to the
cash-flow `Ending_Cash` at every period. -/
theorem C5_cash_recurrence (icfg : IncomeConfig) (bcfg : BalanceConfig)
    (bs : BalanceSheet) (n i : ℕ) :
    Ending_Cash icfg bcfg bs i =
      Beginning_Cash icfg bcfg bs i + Net_Change_Cash icfg bcfg bs i ∧
    Beginning_Cash icfg bcfg bs 0 = bcfg.beginning_balances.cash ∧
    Beginning_Cash icfg bcfg bs (i + 1) = Ending_Cash icfg bcfg bs i ∧
    (finalBalanceSheet icfg bcfg n).Cash i =
      (build_cash_flow_statement icfg bcfg
        (build_balance_sheet icfg bcfg n)).Ending_Cash i := by
  refine ⟨?_, rfl, rfl, rfl⟩
  cases i <;> rfl

/-- C10: the cash-flow statement aggregates accrued expenses, accrued
taxes and other current liabilities into the single
`Change_Other_Current_Liab` line (current-period sum minus prior-period or
beginning-balance sum); the flat `Accrued_Taxes` constant participates in
the delta through the balance-sheet column built from
`liabilities_constants`. -/
theorem C10_ocl_aggregation (icfg : IncomeConfig) (bcfg : BalanceConfig)
    (bs : BalanceSheet) (n i : ℕ) :
    Change_Other_Current_Liab bcfg bs 0 =
      (bs.Accrued_Expenses 0 + bs.Accrued_Taxes 0 + bs.Other_Current_Liab 0) -
        (bcfg.beginning_balances.accrued_expenses +
          bcfg.beginning_balances.accrued_taxes +
          bcfg.beginning_balances.other_current_liabilities) ∧
    Change_Other_Current_Liab bcfg bs (i + 1) =
      (bs.Accrued_Expenses (i + 1) + bs.Accrued_Taxes (i + 1) +
          bs.Other_Current_Liab (i + 1)) -
        (bs.Accrued_Expenses i + bs.Accrued_Taxes i + bs.Other_Current_Liab i) ∧
    (build_balance_sheet icfg bcfg n).Accrued_Taxes i =
      bcfg.liabilities_constants.accrued_taxes ∧
    (build_cash_flow_statement icfg bcfg bs).Change_Other_Current_Liab i =
      Change_Other_Current_Liab bcfg bs i :=
  ⟨rfl, rfl, rfl, rfl⟩

/-- C9 (counterexample): a period-indexed input array of length 3 assigned
with period count 2 is not a configuration error: the engine silently
truncates it to its first 2 entries. -/
theorem C9_counterexample :
    ([1, 2, 3] : List ℚ).length ≠ 2 ∧
    setColumn [1, 2, 3] 2 = Except.ok [1, 2] := by
  constructor
  · norm_num
  · simp [setColumn]

/-- C9 (amended): a period-indexed array at least as long as the period
count is accepted, truncated to its first `n` entries; a shorter array is
a fatal length-mismatch error; a missing required assumption key is a
fatal `KeyError` raised at the point of access. -/
theorem C9_config_input_handling (values : List ℚ) (n : ℕ)
    (d : List (String × ℚ)) (key : String) :
    (n ≤ values.length → setColumn values n = Except.ok (values.take n)) ∧
    (values.length < n →
      setColumn values n =
        Except.error "Length of values does not match length of index") ∧
    (d.lookup key = none →
      dictGet d key = Except.error ("KeyError: " ++ key)) := by
  refine ⟨fun h => ?_, fun h => ?_, fun h => ?_⟩
  · simp [setColumn, List.length_take, Nat.min_eq_left h]
  · have hne : min n values.length ≠ n := by omega
    simp [setColumn, List.length_take, hne]
  · simp [dictGet, h]

/-- C9 (witness): the amended theorem applied to a length-3 array with
period count 2, a length-1 array with period count 3, and a dictionary
missing the requested key. -/
theorem C9_witness :
    (2 ≤ ([1, 2, 3] : List ℚ).length ∧
      setColumn [1, 2, 3] 2 = Except.ok (([1, 2, 3] : List ℚ).take 2)) ∧
    (([4] : List ℚ).length < 3 ∧
      setColumn [4] 3 =
        Except.error "Length of values does not match length of index") ∧
    (([("a", (1 : ℚ))].lookup "b" = none ∧
      dictGet [("a", 1)] "b" = Except.error ("KeyError: " ++ "b"))) := by
  have h1 : 2 ≤ ([1, 2, 3] : List ℚ).length := by norm_num
  have h2 : ([4] : List ℚ).length < 3 := by norm_num
  have h3 : ([("a", (1 : ℚ))].lookup "b") = none := by simp [List.lookup]
  exact ⟨⟨h1, (C9_config_input_handling [1, 2, 3] 2 [] "x").1 h1⟩,
    ⟨h2, (C9_config_input_handling [4] 3 [] "x").2.1 h2⟩,
    ⟨h3, (C9_config_input_handling [] 0 [("a", 1)] "b").2.2 h3⟩⟩

/-- C6: the cash-flow stage never reads the balance sheet's `Cash`
column: two first-pass balance sheets that agree on every column except
`Cash` produce identical cash-flow statements (every column, every
period), so no iteration to convergence is needed. -/
theorem C6_cash_flow_ignores_cash (icfg : IncomeConfig) (bcfg : BalanceConfig)
    (bs1 bs2 : BalanceSheet) (h : agree_except_cash bs1 bs2) :
    build_cash_flow_statement icfg bcfg bs1 =
      build_cash_flow_statement icfg bcfg bs2 := by
  obtain ⟨hInv, hAR, hAP, hAE, hOCL, hOCA, -, -, -, -, -, -, -, -, -,
    hDI, hAT, -, -, -, -, -, -, -, -, -, -, -, -, -, -⟩ := h
  have hCAR : Change_AR bcfg bs1 = Change_AR bcfg bs2 := by
    funext i; cases i <;> simp [Change_AR, hAR]
  have hCInv : Change_Inventory bcfg bs1 = Change_Inventory bcfg bs2 := by
    funext i; cases i <;> simp [Change_Inventory, hInv]
  have hCOCA : Change_Other_Current_Assets bcfg bs1 =
      Change_Other_Current_Assets bcfg bs2 := by
    funext i; cases i <;> simp [Change_Other_Current_Assets, hOCA]
  have hCAP : Change_AP bcfg bs1 = Change_AP bcfg bs2 := by
    funext i; cases i <;> simp [Change_AP, hAP]
  have hCDI : Change_Deferred_Income bs1 = Change_Deferred_Income bs2 := by
    funext i; cases i <;> simp [Change_Deferred_Income, hDI]
  have hsum : ocl_sum bs1 = ocl_sum bs2 := by
    funext i; simp [ocl_sum, hAE, hAT, hOCL]
  have hCOCL : Change_Other_Current_Liab bcfg bs1 =
      Change_Other_Current_Liab bcfg bs2 := by
    funext i; cases i <;> simp [Change_Other_Current_Liab, hsum]
  have hOps : Cash_from_Operations icfg bcfg bs1 =
      Cash_from_Operations icfg bcfg bs2 := by
    funext i
    simp [Cash_from_Operations, hCAR, hCInv, hCOCA, hCAP, hCDI, hCOCL]
  have hNCC : Net_Change_Cash icfg bcfg bs1 = Net_Change_Cash icfg bcfg bs2 := by
    funext i; simp [Net_Change_Cash, hOps]
  have hEC : Ending_Cash icfg bcfg bs1 = Ending_Cash icfg bcfg bs2 := by
    funext i
    induction i with
    | zero => simp [Ending_Cash, hNCC]
    | succ k ih => simp [Ending_Cash, hNCC, ih]
  have hBgn : Beginning_Cash icfg bcfg bs1 = Beginning_Cash icfg bcfg bs2 := by
    funext i
    cases i with
    | zero => rfl
    | succ k => simp [Beginning_Cash, hEC]
  simp [build_cash_flow_statement, hCAR, hCInv, hCOCA, hCAP, hCDI, hCOCL,
    hOps, hNCC, hEC, hBgn]

/-- C6 (witness): the theorem applied to two concrete balance sheets that
differ exactly in their `Cash` column. -/
theorem C6_cash_flow_ignores_cash_witness :
    (agree_except_cash bsA bsB ∧ bsA.Cash 0 ≠ bsB.Cash 0) ∧
    build_cash_flow_statement icfg0 bcfg0 bsA =
      build_cash_flow_statement icfg0 bcfg0 bsB := by
  have h : agree_except_cash bsA bsB :=
    ⟨rfl, rfl, rfl, rfl, rfl, rfl, rfl, rfl, rfl, rfl, rfl, rfl, rfl, rfl,
      rfl, rfl, rfl, rfl, rfl, rfl, rfl, rfl, rfl, rfl, rfl, rfl, rfl, rfl,
      rfl, rfl, rfl⟩
  refine ⟨⟨h, by norm_num [bsA, bsB]⟩, ?_⟩
  exact C6_cash_flow_ignores_cash icfg0 bcfg0 bsA bsB h

/-! Helper evaluations of the engine on `icfg0` / `bcfgW`, shared by the
balance-check theorems: with every income assumption zero and only a
beginning accrued-taxes balance of 5, the engine produces a constant
imbalance of -5005 in every period (the 5000 comes from the hardcoded
deferred-income prior, the 5 from the beginning accrued taxes). -/

/-- The all-zero stream stays at 0. -/
theorem stream_zeroStream (j : ℕ) : stream zeroStream j = 0 := by
  induction j with
  | zero => simp [stream, zeroStream]
  | succ k ih => simp [stream, ih]

/-- Net income is 0 in every period under `icfg0`. -/
theorem icfg0_net_income (j : ℕ) : Net_Income icfg0 j = 0 := by
  have hnr : ∀ i, Net_Revenue icfg0 i = 0 := by
    intro i
    cases i <;>
      simp [Net_Revenue, Sales_Returns, revenueSum, Revenue_Stream_1,
        Revenue_Stream_2, Revenue_Stream_3, Revenue_Stream_4, icfg0,
        stream_zeroStream]
  have hfc : ∀ i, Fixed_Costs icfg0 i = 0 := by
    intro i
    cases i <;> simp [Fixed_Costs, Fixed_Costs_at, icfg0]
  have hvc : ∀ i, Variable_Costs icfg0 i = 0 := by
    intro i; simp [Variable_Costs, icfg0, stream_zeroStream]
  simp only [Net_Income, Net_Income_Before_Taxes, EBITDA, Gross_Profit,
    Total_COGS, Total_Operating_Expenses, GA_Expenses,
    Total_Salaries_Commissions, Total_Interest_DA]
  rw [hnr, hvc, hfc]
  norm_num [icfg0]

/-- Retained earnings stay at 0 under `icfg0`. -/
theorem icfg0_retained_earnings (j : ℕ) : Retained_Earnings icfg0 j = 0 := by
  induction j with
  | zero => exact icfg0_net_income 0
  | succ k ih =>
    show Retained_Earnings icfg0 k + Net_Income icfg0 (k + 1) = 0
    rw [ih, icfg0_net_income]; norm_num

/-- Reading a list of zeros with default 0 gives 0 at every index. -/
theorem zeros_getD (i : ℕ) (l : List ℚ) (h : ∀ x ∈ l, x = 0) :
    l.getD i 0 = 0 := by
  induction l generalizing i with
  | nil => simp [List.getD]
  | cons a t ih =>
    cases i with
    | zero => simpa using h a (by simp)
    | succ k => simpa using ih k (fun x hx => h x (by simp [hx]))

/-- The all-zero pair reads as 0 at every index. -/
theorem pair_zero_getD (i : ℕ) : ([0, 0] : List ℚ).getD i 0 = 0 :=
  zeros_getD i _ (by simp)

/-- The all-zero pair reads as 0 at every index (optional-indexing
form). -/
theorem pair_zero_getElem (i : ℕ) : (([0, 0] : List ℚ)[i]?).getD 0 = 0 := by
  match i with
  | 0 => rfl
  | 1 => rfl
  | k + 2 => rfl

/-- A column assigned from the all-zero pair is 0 at every period, for
any period count. -/
theorem colOf_pair_zero (n i : ℕ) : colOf [0, 0] n i = 0 :=
  zeros_getD i _ (fun x hx => by simpa using List.take_subset n [0, 0] hx)

/-- The net change in cash under `icfg0`/`bcfgW` is -5005 at period 0
(hardcoded deferred-income prior 5000 plus beginning accrued taxes 5) and
0 afterwards. -/
theorem bcfgW_net_change_cash (n j : ℕ) :
    Net_Change_Cash icfg0 bcfgW (build_balance_sheet icfg0 bcfgW n) j =
      if j = 0 then -5005 else 0 := by
  cases j with
  | zero =>
    simp only [Net_Change_Cash, Cash_from_Operations, Change_AR,
      Change_Inventory, Change_Other_Current_Assets, Change_AP,
      Change_Deferred_Income, Change_Other_Current_Liab, ocl_sum,
      beginning_ocl, beginning_oca]
    rw [icfg0_net_income]
    norm_num [build_balance_sheet, colOf_pair_zero, pair_zero_getD, pair_zero_getElem, bcfgW,
      bcfg0, pv2, icfg0]
  | succ k =>
    simp only [Net_Change_Cash, Cash_from_Operations, Change_AR,
      Change_Inventory, Change_Other_Current_Assets, Change_AP,
      Change_Deferred_Income, Change_Other_Current_Liab, ocl_sum,
      beginning_ocl, beginning_oca]
    rw [icfg0_net_income]
    norm_num [build_balance_sheet, colOf_pair_zero, pair_zero_getD, pair_zero_getElem, bcfgW,
      bcfg0, pv2, icfg0]

/-- Ending cash under `icfg0`/`bcfgW` is -5005 in every period. -/
theorem bcfgW_ending_cash (n j : ℕ) :
    Ending_Cash icfg0 bcfgW (build_balance_sheet icfg0 bcfgW n) j = -5005 := by
  induction j with
  | zero =>
    show bcfgW.beginning_balances.cash +
      Net_Change_Cash icfg0 bcfgW (build_balance_sheet icfg0 bcfgW n) 0 = -5005
    rw [bcfgW_net_change_cash]
    norm_num [bcfgW, bcfg0]
  | succ k ih =>
    show Ending_Cash icfg0 bcfgW (build_balance_sheet icfg0 bcfgW n) k +
      Net_Change_Cash icfg0 bcfgW (build_balance_sheet icfg0 bcfgW n) (k + 1) =
        -5005
    rw [ih, bcfgW_net_change_cash]
    norm_num

/-- The balance check under `icfg0`/`bcfgW` is -5005 in every period. -/
theorem bcfgW_balance_check (n i : ℕ) :
    (finalBalanceSheet icfg0 bcfgW n).Balance_Check i = -5005 := by
  simp only [finalBalanceSheet, build_cash_flow_statement]
  rw [bcfgW_ending_cash]
  simp only [build_balance_sheet]
  rw [icfg0_retained_earnings]
  norm_num [colOf_pair_zero, pair_zero_getD, pair_zero_getElem, bcfgW, bcfg0, pv2, icfg0]

/-- `|(-5005 : ℚ)| = 5005`. -/
theorem abs_neg_5005 : |(-5005 : ℚ)| = 5005 := by
  rw [abs_of_nonpos (by norm_num)]; norm_num

/-- With one period, the maximum imbalance under `icfg0`/`bcfgW` is 5005. -/
theorem bcfgW_max_imbalance_one : max_imbalance icfg0 bcfgW 1 = 5005 := by
  simp only [max_imbalance, List.range_succ, List.range_zero, List.nil_append,
    List.foldl_cons, List.foldl_nil]
  rw [bcfgW_balance_check, abs_neg_5005]
  norm_num [max_def]

/-- With two periods, the maximum imbalance under `icfg0`/`bcfgW` is
5005. -/
theorem bcfgW_max_imbalance_two : max_imbalance icfg0 bcfgW 2 = 5005 := by
  simp only [max_imbalance, List.range_succ, List.range_zero, List.nil_append,
    List.append_assoc, List.singleton_append, List.foldl_cons, List.foldl_nil]
  rw [bcfgW_balance_check, bcfgW_balance_check, abs_neg_5005]
  norm_num [max_def]

/-- C7 (counterexample): two assumption sets (same configs, period counts
1 and 2) produce identical warnings (maximum imbalance 5005, above the
0.01 tolerance) while the period sets at which the imbalance occurs differ
([0] versus [0, 1]): the warning printed by the engine carries only the
maximum imbalance, so it cannot carry the period(s) where the violation
occurs. -/
theorem C7_counterexample :
    balance_warning icfg0 bcfgW 1 = balance_warning icfg0 bcfgW 2 ∧
    balance_warning icfg0 bcfgW 1 = some 5005 ∧
    violation_periods icfg0 bcfgW 1 = [0] ∧
    violation_periods icfg0 bcfgW 2 = [0, 1] ∧
    violation_periods icfg0 bcfgW 1 ≠ violation_periods icfg0 bcfgW 2 := by
  have hv1 : violation_periods icfg0 bcfgW 1 = [0] := by
    simp only [violation_periods, List.range_succ, List.range_zero,
      List.nil_append, List.filter]
    rw [bcfgW_balance_check, bcfgW_max_imbalance_one, abs_neg_5005]
    simp
  have hv2 : violation_periods icfg0 bcfgW 2 = [0, 1] := by
    simp only [violation_periods, List.range_succ, List.range_zero,
      List.nil_append, List.append_assoc, List.singleton_append, List.filter]
    rw [bcfgW_balance_check, bcfgW_balance_check, bcfgW_max_imbalance_two,
      abs_neg_5005]
    simp
  refine ⟨?_, ?_, hv1, hv2, ?_⟩
  · rw [balance_warning, balance_warning, bcfgW_max_imbalance_one,
      bcfgW_max_imbalance_two]
  · rw [balance_warning, bcfgW_max_imbalance_one]
    norm_num
  · rw [hv1, hv2]; simp

/-- C7 (amended): the engine always emits all three statement tables (the
run output carries them whatever the balance check says), and a maximum
absolute imbalance above the 0.01 tolerance is surfaced as a warning
carrying exactly that maximum (and nothing else, in particular not the
period(s) where it occurs); within tolerance no warning is raised. -/
theorem C7_balance_check_report (icfg : IncomeConfig) (bcfg : BalanceConfig)
    (n : ℕ) :
    (run_engine icfg bcfg n).balance = finalBalanceSheet icfg bcfg n ∧
    (run_engine icfg bcfg n).cash_flow =
      build_cash_flow_statement icfg bcfg (build_balance_sheet icfg bcfg n) ∧
    (run_engine icfg bcfg n).income_Net_Income = Net_Income icfg ∧
    ((run_engine icfg bcfg n).warning = none ↔
      max_imbalance icfg bcfg n ≤ 1 / 100) ∧
    (1 / 100 < max_imbalance icfg bcfg n →
      (run_engine icfg bcfg n).warning = some (max_imbalance icfg bcfg n)) := by
  refine ⟨rfl, rfl, rfl, ?_, ?_⟩
  · by_cases hc : 1 / 100 < max_imbalance icfg bcfg n
    · simp [run_engine, balance_warning, hc, not_le.mpr hc]
    · simp [run_engine, balance_warning, hc, not_lt.mp hc]
  · intro hc
    show balance_warning icfg bcfg n = some (max_imbalance icfg bcfg n)
    rw [balance_warning, if_pos hc]

/-- C7 (witness): the report theorem applied to the `icfg0`/`bcfgW` run,
whose maximum imbalance of 5005 exceeds the tolerance. -/
theorem C7_balance_check_report_witness :
    1 / 100 < max_imbalance icfg0 bcfgW 1 ∧
    (run_engine icfg0 bcfgW 1).warning = some (max_imbalance icfg0 bcfgW 1) := by
  have h : 1 / 100 < max_imbalance icfg0 bcfgW 1 := by
    rw [bcfgW_max_imbalance_one]; norm_num
  exact ⟨h, (C7_balance_check_report icfg0 bcfgW 1).2.2.2.2 h⟩

end FM
